import Mathlib

/-!
Shallow embedding of src/pagination-wc.js (class PaginationWebComponent).

State is split into the fields the class stores (PagState) and the part of
the shadow DOM the class mutates (View).  JavaScript numbers that can become
non-integers through the public API are modelled as rationals; every
arithmetic operation performed by the source on these values (ceil, floor,
abs, min, comparison, multiplication, addition) is exact on rationals.
A thrown TypeError (indexing an array at an undefined key and then reading
.style) is modelled with Except.  Each method of the class is one definition
below, named as in the source.
-/

namespace PaginationWC

/-- JS whitespace accepted by parseInt before the number (ASCII part). -/
def isJsSpace (c : Char) : Bool :=
  c = ' ' ∨ c = '\t' ∨ c = '\n' ∨ c = '\r' ∨ c = Char.ofNat 11 ∨ c = Char.ofNat 12

/-- Value of a decimal digit character, none when the character is not a digit. -/
def decDigit (c : Char) : Option ℕ :=
  if '0' ≤ c ∧ c ≤ '9' then some (c.toNat - Char.toNat '0') else none

/-- Value of a hexadecimal digit character. -/
def hexDigit (c : Char) : Option ℕ :=
  if '0' ≤ c ∧ c ≤ '9' then some (c.toNat - Char.toNat '0')
  else if 'a' ≤ c ∧ c ≤ 'f' then some (c.toNat - Char.toNat 'a' + 10)
  else if 'A' ≤ c ∧ c ≤ 'F' then some (c.toNat - Char.toNat 'A' + 10)
  else none

/-- Consume leading digits in the given radix, returning how many digits were
read and the accumulated value; parsing stops at the first non-digit, as JS
parseInt does. -/
def takeDigits (dig : Char → Option ℕ) (radix : ℕ) : List Char → ℕ → ℕ → ℕ × ℕ
  | [], cnt, acc => (cnt, acc)
  | c :: cs, cnt, acc =>
    match dig c with
    | some d => takeDigits dig radix cs (cnt + 1) (acc * radix + d)
    | none => (cnt, acc)

/-- JS parseInt with no radix argument: skip whitespace, optional sign,
optional 0x / 0X hexadecimal prefix, then leading digits; none models NaN
(no digit could be read). -/
def parseIntJS (s : String) : Option ℤ :=
  let cs := s.data.dropWhile isJsSpace
  let (sign, cs) : ℤ × List Char :=
    match cs with
    | '-' :: rest => (-1, rest)
    | '+' :: rest => (1, rest)
    | rest => (1, rest)
  let (radix, dig, cs) : ℕ × (Char → Option ℕ) × List Char :=
    match cs with
    | '0' :: 'x' :: rest => (16, hexDigit, rest)
    | '0' :: 'X' :: rest => (16, hexDigit, rest)
    | rest => (10, decDigit, rest)
  match takeDigits dig radix cs 0 0 with
  | (0, _) => none
  | (_ + 1, v) => some (sign * (v : ℤ))

/-- Fields the class stores on itself (constructor, lines 48-55 of the
source): configuration and pagination state.  The item array is modelled by
its length; item identity is never inspected by the component. -/
structure PagState where
  itemsPerPage : ℤ
  prevText : String
  nextText : String
  currentPage : ℚ
  totalPages : ℤ
  numItems : ℕ
deriving DecidableEq

/-- One page-number button in the numbers container: its data-page value,
whether it carries the active class, and whether its style.display is unset
(visible) rather than none. -/
structure PageButton where
  page : ℤ
  active : Bool
  visible : Bool
deriving DecidableEq

/-- The part of the shadow DOM and the slotted items that the class mutates:
per-item style.display (true = visible), the page-number buttons, the
disabled flags of the prev and next buttons, the display of the controls
strip, and the fallback label texts. -/
structure View where
  itemDisplay : List Bool
  pageBtns : List PageButton
  prevDisabled : Bool
  nextDisabled : Bool
  controlsVisible : Bool
  prevLabel : String
  nextLabel : String
deriving DecidableEq

/-- Detail payload of the pagechange CustomEvent (source lines 455-466). -/
structure PageChangeEvent where
  currentPage : ℚ
  totalPages : ℤ
  itemsPerPage : ℤ
  startIndex : ℚ
  endIndex : ℚ
deriving DecidableEq

/-- Result of running one method or handler: the state and view afterwards,
the pagechange events dispatched, and whether an exception escaped. -/
structure Outcome where
  st : PagState
  view : View
  events : List PageChangeEvent
  threw : Bool
deriving DecidableEq

/-- State set up by the constructor: itemsPerPage 3, labels Prev and Next,
currentPage 1, totalPages 1, no items. -/
def initState : PagState :=
  { itemsPerPage := 3, prevText := "Prev", nextText := "Next",
    currentPage := 1, totalPages := 1, numItems := 0 }

/-- View produced by render(): no items yet, no page buttons, both nav
buttons enabled, controls strip hidden (style display none in the template),
labels from the freshly constructed state. -/
def initView : View :=
  { itemDisplay := [], pageBtns := [], prevDisabled := false,
    nextDisabled := false, controlsVisible := false,
    prevLabel := "Prev", nextLabel := "Next" }

/-- Pure core of calculateTotalPages: Math.ceil(items.length / itemsPerPage)
with the JS-falsy fallback to 1 (the result 0 is falsy; itemsPerPage is never
0 after validation, so the NaN and Infinity cases of / cannot arise). -/
def calculateTotalPagesFn (numItems : ℕ) (itemsPerPage : ℤ) : ℤ :=
  let t := ⌈(numItems : ℚ) / (itemsPerPage : ℚ)⌉
  if t = 0 then 1 else t

/-- calculateTotalPages (source lines 333-340): recompute totalPages, then
clamp currentPage down when it exceeds totalPages. -/
def calculateTotalPages (s : PagState) : PagState :=
  let s1 := { s with totalPages := calculateTotalPagesFn s.numItems s.itemsPerPage }
  if s1.currentPage > (s1.totalPages : ℚ) then
    { s1 with currentPage := (s1.totalPages : ℚ) }
  else s1

/-- shouldShowPageNumber (source lines 414-427): always show page 1, the last
page and the current page; otherwise show pages within
Math.floor(displayCount / 2) of the current page. -/
def shouldShowPageNumber (s : PagState) (pageNumber : ℤ) (displayCount : ℕ) : Bool :=
  if pageNumber = 1 ∨ pageNumber = s.totalPages ∨ (pageNumber : ℚ) = s.currentPage then
    true
  else
    decide (|(pageNumber : ℚ) - s.currentPage| ≤ ((displayCount / 2 : ℕ) : ℚ))

/-- updatePaginationVisibility (source lines 395-405): set the display of
every page-number button from shouldShowPageNumber; displayCount is the
injected responsive value (3 when the viewport is narrow, else 5). -/
def updatePaginationVisibility (s : PagState) (displayCount : ℕ) (v : View) : View :=
  { v with pageBtns := v.pageBtns.map fun b =>
      { b with visible := shouldShowPageNumber s b.page displayCount } }

/-- createPageNumbers (source lines 364-388): clear the numbers container,
create one button per page numbered 1..totalPages, mark the current page
active, then run updatePaginationVisibility. -/
def createPageNumbers (s : PagState) (displayCount : ℕ) (v : View) : View :=
  let btns := (List.range s.totalPages.toNat).map fun k =>
    { page := (k : ℤ) + 1, active := decide (((k : ℤ) + 1 : ℤ) = s.currentPage),
      visible := true : PageButton }
  updatePaginationVisibility s displayCount { v with pageBtns := btns }

/-- updateButtonStates (source lines 473-487): disable prev on page 1 and
next on the last page. -/
def updateButtonStates (s : PagState) (v : View) : View :=
  { v with prevDisabled := decide (s.currentPage = 1),
           nextDisabled := decide (s.currentPage = (s.totalPages : ℚ)) }

/-- updateActivePageNumber (source lines 493-506): toggle the active class of
every page-number button by comparing its data-page with currentPage. -/
def updateActivePageNumber (s : PagState) (v : View) : View :=
  { v with pageBtns := v.pageBtns.map fun b =>
      { b with active := decide ((b.page : ℚ) = s.currentPage) } }

/-- updateButtonText (source lines 513-528): copy the stored labels into the
fallback text elements. -/
def updateButtonText (s : PagState) (v : View) : View :=
  { v with prevLabel := s.prevText, nextLabel := s.nextText }

/-- Body of the item-showing loop of updateDisplay (source line 445):
for i starting at startIndex, while i is below endIdx and below the item
count, set items at index i to visible and step i by one.  Reading
items[i].style throws a TypeError when i is not an integer in [0, len): the
error value carries the item displays mutated so far.  The fuel argument is
always called with itemsPerPage.toNat, which is exact: the loop makes at
most that many steps, and when the fuel runs out the loop guard i below
endIdx = startIndex + itemsPerPage is false as well, so returning ok there
agrees with the source loop exit. -/
def showItems : (fuel : ℕ) → (len : ℕ) → (endIdx : ℚ) → (i : ℚ) →
    List Bool → Except (List Bool) (List Bool)
  | 0, _, _, _, disp => .ok disp
  | fuel + 1, len, endIdx, i, disp =>
    if i < endIdx ∧ i < (len : ℚ) then
      if i.den = 1 ∧ 0 ≤ i.num ∧ i.num < (len : ℤ) then
        showItems fuel len endIdx (i + 1) (disp.set i.num.toNat true)
      else .error disp
    else .ok disp

/-- updateDisplay (source lines 434-467): hide every item, compute the index
range of the current page, show the items of that range (this loop can throw,
see showItems), then update the nav-button states, the active page number and
the responsive visibility, and finally dispatch one pagechange event.  When
the loop throws, the later steps and the event dispatch do not happen and the
exception escapes. -/
def updateDisplay (s : PagState) (displayCount : ℕ) (v : View) :
    View × List PageChangeEvent × Bool :=
  let disp0 := v.itemDisplay.map fun _ => false
  let startIndex : ℚ := (s.currentPage - 1) * (s.itemsPerPage : ℚ)
  let endIndex : ℚ := startIndex + (s.itemsPerPage : ℚ)
  match showItems s.itemsPerPage.toNat v.itemDisplay.length endIndex startIndex disp0 with
  | .error dispPart => ({ v with itemDisplay := dispPart }, [], true)
  | .ok disp =>
    let v1 := { v with itemDisplay := disp }
    let v2 := updateButtonStates s v1
    let v3 := updateActivePageNumber s v2
    let v4 := updatePaginationVisibility s displayCount v3
    (v4,
     [{ currentPage := s.currentPage, totalPages := s.totalPages,
        itemsPerPage := s.itemsPerPage, startIndex := startIndex,
        endIndex := min endIndex (v.itemDisplay.length : ℚ) }],
     false)

/-- updatePagination (source lines 347-357): recompute totalPages, rebuild
the page-number buttons, run updateDisplay, then show the controls strip
exactly when totalPages is above 1.  An exception from updateDisplay skips
the controls-strip line and escapes. -/
def updatePagination (s : PagState) (displayCount : ℕ) (v : View) : Outcome :=
  let s1 := calculateTotalPages s
  let v1 := createPageNumbers s1 displayCount v
  let r := updateDisplay s1 displayCount v1
  if r.2.2 then { st := s1, view := r.1, events := r.2.1, threw := true }
  else
    { st := s1,
      view := { r.1 with controlsVisible := decide (1 < s1.totalPages) },
      events := r.2.1, threw := false }

/-- Reset step of initializePagination (source lines 317-319): a currentPage
below 1 goes back to 1. -/
def resetCp (s : PagState) : PagState :=
  if s.currentPage < 1 then { s with currentPage := 1 } else s

/-- initializePagination (source lines 298-327): snapshot the slotted items
(here: their count and current display states), reset currentPage to 1 when
it is below 1, recompute totalPages, then run updatePagination; the whole
body is inside try/catch, so an exception is logged and does not escape. -/
def initializePagination (newDisp : List Bool) (s : PagState) (displayCount : ℕ)
    (v : View) : Outcome :=
  let s1 := { s with numItems := newDisp.length }
  let v1 := { v with itemDisplay := newDisp }
  let s2 := resetCp s1
  let s3 := calculateTotalPages s2
  let o := updatePagination s3 displayCount v1
  { o with threw := false }

/-- goToPage (source lines 537-547): when the page number is at least 1, at
most totalPages and differs from currentPage, store it and run updateDisplay;
otherwise do nothing.  The argument is any JS number, so a rational here. -/
def goToPage (p : ℚ) (s : PagState) (displayCount : ℕ) (v : View) : Outcome :=
  if 1 ≤ p ∧ p ≤ (s.totalPages : ℚ) ∧ p ≠ s.currentPage then
    let s1 := { s with currentPage := p }
    let r := updateDisplay s1 displayCount v
    { st := s1, view := r.1, events := r.2.1, threw := r.2.2 }
  else { st := s, view := v, events := [], threw := false }

/-- refresh (source lines 554-556): delegates to initializePagination. -/
def refresh (newDisp : List Bool) (s : PagState) (displayCount : ℕ) (v : View) : Outcome :=
  initializePagination newDisp s displayCount v

/-- getCurrentPage (source lines 563-565). -/
def getCurrentPage (s : PagState) : ℚ := s.currentPage

/-- getTotalPages (source lines 572-574). -/
def getTotalPages (s : PagState) : ℤ := s.totalPages

/-- Click handler of the prev button (source lines 260-265): when currentPage
is above 1, decrement it and run updateDisplay. -/
def prevClick (s : PagState) (displayCount : ℕ) (v : View) : Outcome :=
  if s.currentPage > 1 then
    let s1 := { s with currentPage := s.currentPage - 1 }
    let r := updateDisplay s1 displayCount v
    { st := s1, view := r.1, events := r.2.1, threw := r.2.2 }
  else { st := s, view := v, events := [], threw := false }

/-- Click handler of the next button (source lines 268-273): when currentPage
is below totalPages, increment it and run updateDisplay. -/
def nextClick (s : PagState) (displayCount : ℕ) (v : View) : Outcome :=
  if s.currentPage < (s.totalPages : ℚ) then
    let s1 := { s with currentPage := s.currentPage + 1 }
    let r := updateDisplay s1 displayCount v
    { st := s1, view := r.1, events := r.2.1, threw := r.2.2 }
  else { st := s, view := v, events := [], threw := false }

/-- The attributes the component observes (source lines 68-70). -/
inductive AttrName
  | ipp
  | prev
  | next
deriving DecidableEq

/-- attributeChangedCallback (source lines 79-101): when the value changed,
store the new configuration value (items-per-page through parseInt with the
JS-falsy fallback 3, the labels with fallback to their defaults; a removed
attribute arrives as null, modelled as none), then run updatePagination and
updateButtonText.  An exception from updatePagination skips updateButtonText
and escapes. -/
def attributeChangedCallback (name : AttrName) (oldV newV : Option String)
    (s : PagState) (displayCount : ℕ) (v : View) : Outcome :=
  if oldV ≠ newV then
    let s1 :=
      match name with
      | .ipp =>
        let parsed := match newV with
          | none => none
          | some str => parseIntJS str
        { s with itemsPerPage :=
            match parsed with
            | none => 3
            | some n => if n = 0 then 3 else n }
      | .prev =>
        { s with prevText :=
            match newV with
            | none => "Prev"
            | some t => if t = "" then "Prev" else t }
      | .next =>
        { s with nextText :=
            match newV with
            | none => "Next"
            | some t => if t = "" then "Next" else t }
    let o := updatePagination s1 displayCount v
    if o.threw then o else { o with view := updateButtonText o.st o.view }
  else { st := s, view := v, events := [], threw := false }

/-- Resize handler (source lines 288-291): on a viewport resize only
updatePaginationVisibility runs, with the displayCount derived from the new
width; nothing else is touched and no event is dispatched. -/
def resizeSignal (s : PagState) (newDisplayCount : ℕ) (v : View) : Outcome :=
  { st := s, view := updatePaginationVisibility s newDisplayCount v,
    events := [], threw := false }

/-- External triggers of the component, one per transition of the spec. -/
inductive Transition
  | reconfigure (name : AttrName) (oldV newV : Option String)
  | refreshItems (newDisp : List Bool)
  | navigateTo (p : ℤ)
  | navPrev
  | navNext
  | resize (newDisplayCount : ℕ)
deriving DecidableEq

/-- Dispatch one external trigger to the handler the source wires it to;
displayCount is the ambient responsive value read from the viewport width. -/
def step (displayCount : ℕ) (t : Transition) (s : PagState) (v : View) : Outcome :=
  match t with
  | .reconfigure name oldV newV => attributeChangedCallback name oldV newV s displayCount v
  | .refreshItems newDisp => refresh newDisp s displayCount v
  | .navigateTo p => goToPage (p : ℚ) s displayCount v
  | .navPrev => prevClick s displayCount v
  | .navNext => nextClick s displayCount v
  | .resize dc => resizeSignal s dc v

/-- A view over ten slotted items, all initially visible; used by the
concrete scenarios. -/
def tenItemsView : View := { initView with itemDisplay := List.replicate 10 true }

/-- A state with ten items at two per page (five pages) on page 1; used by
the concrete scenarios. -/
def twoPerPageState : PagState :=
  { initState with itemsPerPage := 2, totalPages := 5, numItems := 10 }

/-- Page buttons as left by createPageNumbers (freshly created, then flagged
by updatePaginationVisibility); helper for the normal-form lemmas below. -/
def createdBtns (s : PagState) (dc : ℕ) : List PageButton :=
  ((List.range s.totalPages.toNat).map fun k =>
      ({ page := (k : ℤ) + 1, active := decide (((k : ℤ) + 1 : ℤ) = s.currentPage),
         visible := true } : PageButton)).map fun b =>
    { b with visible := shouldShowPageNumber s b.page dc }

/-- Page buttons as left by a completed updatePagination run: the created
buttons re-flagged by updateActivePageNumber and updatePaginationVisibility;
helper for the normal-form lemmas below. -/
def rebuiltBtns (s : PagState) (dc : ℕ) : List PageButton :=
  (((createdBtns s dc).map fun b =>
      { b with active := decide ((b.page : ℚ) = s.currentPage) }).map fun b =>
    { b with visible := shouldShowPageNumber s b.page dc })

/-- State part of a refresh before the inner updatePagination runs: items
snapshotted, currentPage reset when below 1, totalPages recomputed; helper
for the idempotence development. -/
def refreshedState (s : PagState) (disp : List Bool) : PagState :=
  calculateTotalPages (resetCp { s with numItems := disp.length })

/-- Run a sequence of triggers from a state and view; exceptions escape one
handler but do not stop later triggers. -/
def runSeq (displayCount : ℕ) : List Transition → PagState × View → PagState × View
  | [], sv => sv
  | t :: ts, (s, v) =>
    let o := step displayCount t s v
    runSeq displayCount ts (o.st, o.view)

/-! Helper lemmas about the show-items loop and total-page arithmetic. -/

theorem showItems_ok_of_not_lt (fuel len : ℕ) (endIdx i : ℚ) (disp : List Bool)
    (h : ¬(i < endIdx ∧ i < (len : ℚ))) :
    showItems fuel len endIdx i disp = .ok disp := by
  cases fuel <;> simp only [showItems, if_neg h]

theorem showItems_int_ok (fuel : ℕ) :
    ∀ (len : ℕ) (endIdx : ℚ) (n : ℤ) (disp : List Bool), 0 ≤ n →
      ∃ l, showItems fuel len endIdx (n : ℚ) disp = .ok l := by
  induction fuel with
  | zero =>
    intro len endIdx n disp _
    exact ⟨disp, rfl⟩
  | succ fuel ih =>
    intro len endIdx n disp hn
    by_cases h1 : ((n : ℚ) < endIdx ∧ (n : ℚ) < (len : ℚ))
    · have hcheck : ((n : ℚ)).den = 1 ∧ 0 ≤ ((n : ℚ)).num ∧ ((n : ℚ)).num < (len : ℤ) := by
        refine ⟨Rat.den_intCast n, ?_, ?_⟩
        · rw [Rat.num_intCast]
          exact hn
        · rw [Rat.num_intCast]
          exact_mod_cast h1.2
      obtain ⟨l, hl⟩ := ih len endIdx (n + 1) (disp.set ((n : ℚ)).num.toNat true) (by omega)
      refine ⟨l, ?_⟩
      simp only [showItems, if_pos h1, if_pos hcheck]
      rw [show ((n : ℚ) + 1) = (((n + 1 : ℤ)) : ℚ) by push_cast; ring]
      exact hl
    · exact ⟨disp, showItems_ok_of_not_lt _ _ _ _ _ h1⟩

theorem showItems_length (fuel : ℕ) :
    ∀ (len : ℕ) (endIdx i : ℚ) (disp : List Bool),
      (∀ l, showItems fuel len endIdx i disp = .ok l → l.length = disp.length) ∧
      (∀ l, showItems fuel len endIdx i disp = .error l → l.length = disp.length) := by
  induction fuel with
  | zero =>
    intro len endIdx i disp
    constructor
    · intro l hl
      simp only [showItems] at hl
      cases hl
      rfl
    · intro l hl
      simp only [showItems] at hl
      exact Except.noConfusion hl
  | succ fuel ih =>
    intro len endIdx i disp
    by_cases h1 : (i < endIdx ∧ i < (len : ℚ))
    · by_cases h2 : (i.den = 1 ∧ 0 ≤ i.num ∧ i.num < (len : ℤ))
      · have hrec := ih len endIdx (i + 1) (disp.set i.num.toNat true)
        constructor
        · intro l hl
          simp only [showItems, if_pos h1, if_pos h2] at hl
          have := hrec.1 l hl
          simpa using this
        · intro l hl
          simp only [showItems, if_pos h1, if_pos h2] at hl
          have := hrec.2 l hl
          simpa using this
      · constructor
        · intro l hl
          simp only [showItems, if_pos h1, if_neg h2] at hl
          exact Except.noConfusion hl
        · intro l hl
          simp only [showItems, if_pos h1, if_neg h2] at hl
          cases hl
          rfl
    · constructor
      · intro l hl
        rw [showItems_ok_of_not_lt _ _ _ _ _ h1] at hl
        cases hl
        rfl
      · intro l hl
        rw [showItems_ok_of_not_lt _ _ _ _ _ h1] at hl
        cases hl

theorem showItems_start_ok (fuel len : ℕ) (endIdx startIdx : ℚ) (disp : List Bool)
    (h : (∃ n : ℤ, 0 ≤ n ∧ startIdx = (n : ℚ)) ∨ ¬(startIdx < endIdx ∧ startIdx < (len : ℚ))) :
    ∃ l, showItems fuel len endIdx startIdx disp = .ok l := by
  rcases h with ⟨n, hn, rfl⟩ | h
  · exact showItems_int_ok fuel len endIdx n disp hn
  · exact ⟨disp, showItems_ok_of_not_lt _ _ _ _ _ h⟩

theorem updateDisplay_of_ok (s : PagState) (dc : ℕ) (v : View) (l : List Bool)
    (h : showItems s.itemsPerPage.toNat v.itemDisplay.length
        ((s.currentPage - 1) * (s.itemsPerPage : ℚ) + (s.itemsPerPage : ℚ))
        ((s.currentPage - 1) * (s.itemsPerPage : ℚ))
        (v.itemDisplay.map fun _ => false) = .ok l) :
    updateDisplay s dc v =
      (updatePaginationVisibility s dc
        (updateActivePageNumber s (updateButtonStates s { v with itemDisplay := l })),
       [{ currentPage := s.currentPage, totalPages := s.totalPages,
          itemsPerPage := s.itemsPerPage,
          startIndex := (s.currentPage - 1) * (s.itemsPerPage : ℚ),
          endIndex := min ((s.currentPage - 1) * (s.itemsPerPage : ℚ) + (s.itemsPerPage : ℚ))
            (v.itemDisplay.length : ℚ) }],
       false) := by
  simp only [updateDisplay, h]

theorem updateDisplay_of_error (s : PagState) (dc : ℕ) (v : View) (l : List Bool)
    (h : showItems s.itemsPerPage.toNat v.itemDisplay.length
        ((s.currentPage - 1) * (s.itemsPerPage : ℚ) + (s.itemsPerPage : ℚ))
        ((s.currentPage - 1) * (s.itemsPerPage : ℚ))
        (v.itemDisplay.map fun _ => false) = .error l) :
    updateDisplay s dc v = ({ v with itemDisplay := l }, [], true) := by
  simp only [updateDisplay, h]

theorem startCond_of_int_cp (s : PagState) (len : ℕ) (z : ℤ)
    (hz : s.currentPage = (z : ℚ)) (hpos : 0 < s.itemsPerPage → 1 ≤ z) :
    (∃ n : ℤ, 0 ≤ n ∧ (s.currentPage - 1) * (s.itemsPerPage : ℚ) = (n : ℚ)) ∨
      ¬((s.currentPage - 1) * (s.itemsPerPage : ℚ) <
          (s.currentPage - 1) * (s.itemsPerPage : ℚ) + (s.itemsPerPage : ℚ) ∧
        (s.currentPage - 1) * (s.itemsPerPage : ℚ) < (len : ℚ)) := by
  by_cases hipp : 0 < s.itemsPerPage
  · left
    refine ⟨(z - 1) * s.itemsPerPage, mul_nonneg (by have := hpos hipp; omega) (by omega), ?_⟩
    rw [hz]
    push_cast
    ring
  · right
    rintro ⟨h1, -⟩
    have h2 : (s.itemsPerPage : ℚ) ≤ 0 := by exact_mod_cast (by omega : s.itemsPerPage ≤ 0)
    linarith

theorem ceil_div_nonneg (c : ℕ) (p : ℤ) (hp : 0 ≤ p) :
    0 ≤ ⌈(c : ℚ) / (p : ℚ)⌉ :=
  Int.ceil_nonneg (div_nonneg (by positivity) (by exact_mod_cast hp))

theorem calculateTotalPagesFn_pos (c : ℕ) (p : ℤ) (hp : 1 ≤ p) :
    1 ≤ calculateTotalPagesFn c p := by
  have h0 := ceil_div_nonneg c p (by omega)
  simp only [calculateTotalPagesFn]
  split <;> omega

/-- C4: for every item count c and every perPage at least 1, the derived
total page count equals max(1, ceil(c / perPage)), and an empty item
collection yields exactly one page. -/
theorem C4_totalPages_max_ceil (c : ℕ) (p : ℤ) (hp : 1 ≤ p) :
    calculateTotalPagesFn c p = max 1 ⌈(c : ℚ) / (p : ℚ)⌉ ∧
    calculateTotalPagesFn 0 p = 1 := by
  have h0 := ceil_div_nonneg c p (by omega)
  constructor
  · simp only [calculateTotalPagesFn]
    split <;> omega
  · simp only [calculateTotalPagesFn]
    norm_num

/-- Witness for C4 at c = 7, perPage = 3. -/
theorem C4_totalPages_max_ceil_witness :
    (1 : ℤ) ≤ 3 ∧
      (calculateTotalPagesFn 7 3 = max 1 ⌈(7 : ℚ) / (3 : ℚ)⌉ ∧
       calculateTotalPagesFn 0 3 = 1) :=
  ⟨by norm_num, C4_totalPages_max_ceil 7 3 (by norm_num)⟩

/-- C6: a page number is visible in the page-button window iff it is 1, the
last page, the current page, or within floor(displayCount/2) of the current
page; hence 1, the last page and the current page are always visible, and
for displayCount 3, totalPages 10, currentPage 5 the visible page buttons
are exactly 1, 4, 5, 6, 10. -/
theorem C6_window_law :
    (∀ (s : PagState) (p : ℤ) (dc : ℕ),
        shouldShowPageNumber s p dc = true ↔
          p = 1 ∨ p = s.totalPages ∨ (p : ℚ) = s.currentPage ∨
            |(p : ℚ) - s.currentPage| ≤ ((dc / 2 : ℕ) : ℚ)) ∧
    (∀ (s : PagState) (dc : ℕ),
        shouldShowPageNumber s 1 dc = true ∧
        shouldShowPageNumber s s.totalPages dc = true ∧
        ∀ p : ℤ, (p : ℚ) = s.currentPage → shouldShowPageNumber s p dc = true) ∧
    ((createPageNumbers
          { initState with currentPage := 5, totalPages := 10, numItems := 10 } 3
          initView).pageBtns.filter (fun b => b.visible)).map (fun b => b.page) =
      [1, 4, 5, 6, 10] := by
  have hiff : ∀ (s : PagState) (p : ℤ) (dc : ℕ),
      shouldShowPageNumber s p dc = true ↔
        p = 1 ∨ p = s.totalPages ∨ (p : ℚ) = s.currentPage ∨
          |(p : ℚ) - s.currentPage| ≤ ((dc / 2 : ℕ) : ℚ) := by
    intro s p dc
    by_cases h : p = 1 ∨ p = s.totalPages ∨ (p : ℚ) = s.currentPage
    · simp only [shouldShowPageNumber, if_pos h]
      tauto
    · simp only [shouldShowPageNumber, if_neg h, decide_eq_true_eq]
      tauto
  refine ⟨hiff, fun s dc => ⟨?_, ?_, fun p hp => ?_⟩, ?_⟩
  · exact (hiff s 1 dc).2 (Or.inl rfl)
  · exact (hiff s s.totalPages dc).2 (Or.inr (Or.inl rfl))
  · exact (hiff s p dc).2 (Or.inr (Or.inr (Or.inl hp)))
  · with_unfolding_all rfl

/-- Witness for C6: the inner always-visible clause applied at currentPage 5
with displayCount 3 and totalPages 10. -/
theorem C6_window_law_witness :
    ((5 : ℤ) : ℚ) =
        ({ initState with currentPage := 5, totalPages := 10, numItems := 10 } : PagState).currentPage ∧
      shouldShowPageNumber
        { initState with currentPage := 5, totalPages := 10, numItems := 10 } 5 3 = true := by
  refine ⟨by with_unfolding_all rfl, ?_⟩
  exact (C6_window_law.2.1 { initState with currentPage := 5, totalPages := 10, numItems := 10 } 3).2.2
    5 (by with_unfolding_all rfl)

/-- C5: goToPage is a complete no-op (state, view and events unchanged, no
notification) when the requested page is below 1, above totalPages or equal
to currentPage; otherwise it stores the page, recomputes the view through
updateDisplay and emits exactly one pagechange notification. -/
theorem C5_goToPage_guard (s : PagState) (v : View) (p : ℤ) (dc : ℕ) :
    if 1 ≤ p ∧ p ≤ s.totalPages ∧ (p : ℚ) ≠ s.currentPage then
      (goToPage (p : ℚ) s dc v).st =
          { s with currentPage := (p : ℚ) } ∧
        (goToPage (p : ℚ) s dc v).st.totalPages = s.totalPages ∧
        (goToPage (p : ℚ) s dc v).st.numItems = s.numItems ∧
        (goToPage (p : ℚ) s dc v).view =
          (updateDisplay { s with currentPage := (p : ℚ) } dc v).1 ∧
        (goToPage (p : ℚ) s dc v).events.length = 1 ∧
        (goToPage (p : ℚ) s dc v).threw = false
    else
      goToPage (p : ℚ) s dc v = { st := s, view := v, events := [], threw := false } := by
  split
  next hg =>
    have hguard : 1 ≤ (p : ℚ) ∧ (p : ℚ) ≤ (s.totalPages : ℚ) ∧ (p : ℚ) ≠ s.currentPage := by
      refine ⟨by exact_mod_cast hg.1, by exact_mod_cast hg.2.1, hg.2.2⟩
    have hok := showItems_start_ok
      ({ s with currentPage := (p : ℚ) } : PagState).itemsPerPage.toNat v.itemDisplay.length
      ((((p : ℚ)) - 1) * (s.itemsPerPage : ℚ) + (s.itemsPerPage : ℚ))
      ((((p : ℚ)) - 1) * (s.itemsPerPage : ℚ))
      (v.itemDisplay.map fun _ => false)
      (startCond_of_int_cp { s with currentPage := (p : ℚ) } v.itemDisplay.length p rfl
        (fun _ => hg.1))
    obtain ⟨l, hl⟩ := hok
    have hud := updateDisplay_of_ok { s with currentPage := (p : ℚ) } dc v l hl
    simp only [goToPage, if_pos hguard, hud]
    exact ⟨trivial, trivial, trivial, trivial, rfl, trivial⟩
  next hg =>
    have hguard : ¬(1 ≤ (p : ℚ) ∧ (p : ℚ) ≤ (s.totalPages : ℚ) ∧ (p : ℚ) ≠ s.currentPage) := by
      intro hc
      exact hg ⟨by exact_mod_cast hc.1, by exact_mod_cast hc.2.1, hc.2.2⟩
    simp only [goToPage, if_neg hguard]

/-- Witness for C5: navigating from page 1 of a 4-page state to page 2 takes
the success branch and emits one notification; requesting page 9 there is a
no-op. -/
theorem C5_goToPage_guard_witness :
    (goToPage ((2 : ℤ) : ℚ)
        { initState with numItems := 10, totalPages := 4 } 5
        { initView with itemDisplay := List.replicate 10 true }).events.length = 1 ∧
    goToPage ((9 : ℤ) : ℚ)
        { initState with numItems := 10, totalPages := 4 } 5
        { initView with itemDisplay := List.replicate 10 true } =
      { st := { initState with numItems := 10, totalPages := 4 },
        view := { initView with itemDisplay := List.replicate 10 true },
        events := [], threw := false } := by
  constructor
  · have h := C5_goToPage_guard { initState with numItems := 10, totalPages := 4 }
      { initView with itemDisplay := List.replicate 10 true } 2 5
    rw [if_pos (by refine ⟨by norm_num, by norm_num, ?_⟩; with_unfolding_all (exact of_decide_eq_true rfl))] at h
    exact h.2.2.2.2.1
  · have h := C5_goToPage_guard { initState with numItems := 10, totalPages := 4 }
      { initView with itemDisplay := List.replicate 10 true } 9 5
    rw [if_neg (by
      intro hc
      exact absurd hc.2.1 (by with_unfolding_all (exact of_decide_eq_true rfl)))] at h
    exact h

theorem calculateTotalPages_int_cp (s : PagState) (z : ℤ)
    (hz : s.currentPage = (z : ℚ)) (hpos : 0 < s.itemsPerPage → 1 ≤ z) :
    ∃ w : ℤ, (calculateTotalPages s).currentPage = (w : ℚ) ∧
      (0 < (calculateTotalPages s).itemsPerPage → 1 ≤ w) ∧
      (calculateTotalPages s).itemsPerPage = s.itemsPerPage := by
  obtain ⟨ipp, pt, nt, cp, tp, n⟩ := s
  simp only [calculateTotalPages]
  split
  next h =>
    exact ⟨calculateTotalPagesFn n ipp, rfl,
      fun hp => calculateTotalPagesFn_pos n ipp (by
        have hp2 : 0 < ipp := hp
        omega), rfl⟩
  next h =>
    exact ⟨z, hz, fun hp => hpos hp, rfl⟩

set_option maxHeartbeats 1000000 in
theorem updatePagination_one_event (s : PagState) (dc : ℕ) (v : View) (z : ℤ)
    (hz : s.currentPage = (z : ℚ)) (hpos : 0 < s.itemsPerPage → 1 ≤ z) :
    (updatePagination s dc v).events.length = 1 ∧
      (updatePagination s dc v).threw = false := by
  obtain ⟨w, hw, hwpos, hipp⟩ := calculateTotalPages_int_cp s z hz hpos
  obtain ⟨l, hl⟩ := showItems_start_ok (calculateTotalPages s).itemsPerPage.toNat
    (createPageNumbers (calculateTotalPages s) dc v).itemDisplay.length
    (((calculateTotalPages s).currentPage - 1) * ((calculateTotalPages s).itemsPerPage : ℚ) +
      ((calculateTotalPages s).itemsPerPage : ℚ))
    (((calculateTotalPages s).currentPage - 1) * ((calculateTotalPages s).itemsPerPage : ℚ))
    ((createPageNumbers (calculateTotalPages s) dc v).itemDisplay.map fun _ => false)
    (startCond_of_int_cp (calculateTotalPages s) _ w hw hwpos)
  have hud := updateDisplay_of_ok (calculateTotalPages s) dc
    (createPageNumbers (calculateTotalPages s) dc v) l hl
  simp only [updatePagination, hud]
  exact ⟨rfl, rfl⟩

theorem updatePagination_then_buttonText (s1 : PagState) (dc : ℕ) (v : View) (z : ℤ)
    (hz : s1.currentPage = (z : ℚ)) (h1 : 1 ≤ z) :
    (if (updatePagination s1 dc v).threw then updatePagination s1 dc v
      else { updatePagination s1 dc v with
        view := updateButtonText (updatePagination s1 dc v).st
          (updatePagination s1 dc v).view }).events.length = 1 ∧
    (if (updatePagination s1 dc v).threw then updatePagination s1 dc v
      else { updatePagination s1 dc v with
        view := updateButtonText (updatePagination s1 dc v).st
          (updatePagination s1 dc v).view }).threw = false := by
  obtain ⟨he, ht⟩ := updatePagination_one_event s1 dc v z hz (fun _ => h1)
  rw [ht]
  exact ⟨he, ht⟩

/-- C1 counterexample: at a concrete input both a Refresh (10 items from the
initial state) and a Reconfigure (items-per-page changed to 2 afterwards)
dispatch a pagechange event, contradicting the claim that these transitions
emit no page-change notification. -/
theorem C1_counterexample_refresh_and_reconfigure_notify :
    (refresh (List.replicate 10 true) initState 5 initView).events ≠ [] ∧
    (attributeChangedCallback AttrName.ipp (some ("3")) (some ("2"))
        (refresh (List.replicate 10 true) initState 5 initView).st 5
        (refresh (List.replicate 10 true) initState 5 initView).view).events ≠ [] := by
  constructor
  · with_unfolding_all (exact of_decide_eq_true rfl)
  · with_unfolding_all (exact of_decide_eq_true rfl)

/-- C1 amended: updateDisplay dispatches the pagechange event on every
completed run, so Reconfigure (an observed attribute actually changing) and
Refresh are not silent: from any state whose currentPage is an integer at
least 1 (every state reachable without the fractional goToPage argument of
C10), each of them emits exactly one page-change notification.  Only the
ResizeSignal transition updates the view without notifying. -/
theorem C1_reconfigure_refresh_do_notify (s : PagState) (v : View) (dc : ℕ)
    (name : AttrName) (oldV newV : Option String) (newDisp : List Bool) (z : ℤ)
    (hz : s.currentPage = (z : ℚ)) (h1 : 1 ≤ z) (hne : oldV ≠ newV) :
    (attributeChangedCallback name oldV newV s dc v).events.length = 1 ∧
    (attributeChangedCallback name oldV newV s dc v).threw = false ∧
    (refresh newDisp s dc v).events.length = 1 ∧
    (refresh newDisp s dc v).threw = false := by
  have hbranch : ∀ s1 : PagState, s1.currentPage = (z : ℚ) →
      ((if (updatePagination s1 dc v).threw then updatePagination s1 dc v
        else { updatePagination s1 dc v with
          view := updateButtonText (updatePagination s1 dc v).st
            (updatePagination s1 dc v).view }).events.length = 1 ∧
       (if (updatePagination s1 dc v).threw then updatePagination s1 dc v
        else { updatePagination s1 dc v with
          view := updateButtonText (updatePagination s1 dc v).st
            (updatePagination s1 dc v).view }).threw = false) := by
    intro s1 hs1
    obtain ⟨he, ht⟩ := updatePagination_one_event s1 dc v z hs1 (fun _ => h1)
    rw [ht]
    exact ⟨he, ht⟩
  have hcb : (attributeChangedCallback name oldV newV s dc v).events.length = 1 ∧
      (attributeChangedCallback name oldV newV s dc v).threw = false := by
    cases name
    all_goals
      simp only [attributeChangedCallback, if_pos hne]
      exact hbranch _ hz
  have hrf : (refresh newDisp s dc v).events.length = 1 ∧
      (refresh newDisp s dc v).threw = false := by
    have hreset : resetCp { s with numItems := newDisp.length } =
        { s with numItems := newDisp.length } := by
      simp only [resetCp]
      rw [if_neg]
      show ¬(s.currentPage < 1)
      rw [hz]
      exact not_lt.mpr (by exact_mod_cast h1)
    obtain ⟨w, hw, hwpos, hipp⟩ :=
      calculateTotalPages_int_cp { s with numItems := newDisp.length } z hz (fun _ => h1)
    obtain ⟨he, ht⟩ := updatePagination_one_event
      (calculateTotalPages { s with numItems := newDisp.length }) dc
      { v with itemDisplay := newDisp } w hw hwpos
    constructor
    · simp only [refresh, initializePagination, hreset]
      exact he
    · rfl
  exact ⟨hcb.1, hcb.2, hrf.1, hrf.2⟩

/-- Witness for C1 amended, from the freshly constructed state with three
items: both a Reconfigure of items-per-page to 2 and a Refresh emit exactly
one notification. -/
theorem C1_reconfigure_refresh_do_notify_witness :
    (initState.currentPage = ((1 : ℤ) : ℚ) ∧ (1 : ℤ) ≤ 1 ∧
        (some ("3") : Option String) ≠ some ("2")) ∧
    (attributeChangedCallback AttrName.ipp (some ("3")) (some ("2"))
        initState 5 initView).events.length = 1 ∧
    (attributeChangedCallback AttrName.ipp (some ("3")) (some ("2"))
        initState 5 initView).threw = false ∧
    (refresh (List.replicate 3 true) initState 5 initView).events.length = 1 ∧
    (refresh (List.replicate 3 true) initState 5 initView).threw = false := by
  refine ⟨⟨by with_unfolding_all rfl, by norm_num, by decide⟩, ?_⟩
  exact C1_reconfigure_refresh_do_notify initState initView 5 AttrName.ipp
    (some ("3")) (some ("2")) (List.replicate 3 true) 1
    (by with_unfolding_all rfl) (by norm_num) (by decide)

/-- C9: a resize signal leaves the pagination state (currentPage, totalPages,
item count, config), the item visibility, the nav-button states, the controls
strip and the labels unchanged, emits no notification, and only recomputes
the visibility flag of every page-number button. -/
theorem C9_resize_only_visibility (s : PagState) (v : View) (dc : ℕ) :
    (resizeSignal s dc v).st = s ∧
    (resizeSignal s dc v).events = [] ∧
    (resizeSignal s dc v).threw = false ∧
    (resizeSignal s dc v).view.itemDisplay = v.itemDisplay ∧
    (resizeSignal s dc v).view.prevDisabled = v.prevDisabled ∧
    (resizeSignal s dc v).view.nextDisabled = v.nextDisabled ∧
    (resizeSignal s dc v).view.controlsVisible = v.controlsVisible ∧
    (resizeSignal s dc v).view.prevLabel = v.prevLabel ∧
    (resizeSignal s dc v).view.nextLabel = v.nextLabel ∧
    (resizeSignal s dc v).view.pageBtns =
      (v.pageBtns.map fun b => { b with visible := shouldShowPageNumber s b.page dc }) :=
  ⟨rfl, rfl, rfl, rfl, rfl, rfl, rfl, rfl, rfl, rfl⟩

/-- C7: from 10 items with itemsPerPage 3 (totalPages 4, page 1), goToPage 2
makes exactly the items at indices 3, 4, 5 visible and emits one pagechange
notification with currentPage 2, totalPages 4, itemsPerPage 3, startIndex 3,
endIndex 6. -/
theorem C7_scenario_page_two :
    ((refresh (List.replicate 10 true) initState 5 initView).st.totalPages = 4 ∧
     (refresh (List.replicate 10 true) initState 5 initView).st.currentPage = 1 ∧
     (refresh (List.replicate 10 true) initState 5 initView).st.itemsPerPage = 3) ∧
    (goToPage 2 (refresh (List.replicate 10 true) initState 5 initView).st 5
        (refresh (List.replicate 10 true) initState 5 initView).view).st.currentPage = 2 ∧
    (goToPage 2 (refresh (List.replicate 10 true) initState 5 initView).st 5
        (refresh (List.replicate 10 true) initState 5 initView).view).view.itemDisplay =
      [false, false, false, true, true, true, false, false, false, false] ∧
    (goToPage 2 (refresh (List.replicate 10 true) initState 5 initView).st 5
        (refresh (List.replicate 10 true) initState 5 initView).view).events =
      [{ currentPage := 2, totalPages := 4, itemsPerPage := 3,
         startIndex := 3, endIndex := 6 }] ∧
    (goToPage 2 (refresh (List.replicate 10 true) initState 5 initView).st 5
        (refresh (List.replicate 10 true) initState 5 initView).view).threw = false := by
  with_unfolding_all (exact ⟨⟨rfl, rfl, rfl⟩, rfl, rfl, rfl, rfl⟩)

/-- C2: evaluation at the failing input: the attribute string -2 parses to
the truthy value -2, so attributeChangedCallback stores itemsPerPage = -2;
the claimed coercion to the default 3 does not happen and the invariant
itemsPerPage at least 1 fails, contradicting the validation comment
(minimum 1, default 3) in the source. -/
theorem C2_negative_items_per_page_stored :
    parseIntJS ("-2") = some (-2) ∧
    (attributeChangedCallback AttrName.ipp (some ("3")) (some ("-2"))
        { initState with numItems := 5 } 5
        { initView with itemDisplay := List.replicate 5 true }).st.itemsPerPage = -2 ∧
    ¬(1 ≤ (attributeChangedCallback AttrName.ipp (some ("3")) (some ("-2"))
        { initState with numItems := 5 } 5
        { initView with itemDisplay := List.replicate 5 true }).st.itemsPerPage) := by
  refine ⟨by with_unfolding_all rfl, by with_unfolding_all rfl, ?_⟩
  with_unfolding_all (exact of_decide_eq_true rfl)

/-- C3: evaluation at the failing transition sequence: starting from the
initial state, refreshing with 5 items and then changing items-per-page to
-2 ends with currentPage = totalPages = -2, so the claimed invariant
1 at most currentPage at most totalPages is violated by a reachable
sequence. -/
theorem C3_invariant_violated_by_sequence :
    (runSeq 5 [Transition.refreshItems (List.replicate 5 true),
        Transition.reconfigure AttrName.ipp (some ("3")) (some ("-2"))]
      (initState, initView)).1.currentPage = -2 ∧
    (runSeq 5 [Transition.refreshItems (List.replicate 5 true),
        Transition.reconfigure AttrName.ipp (some ("3")) (some ("-2"))]
      (initState, initView)).1.totalPages = -2 ∧
    ¬((1 : ℚ) ≤ (runSeq 5 [Transition.refreshItems (List.replicate 5 true),
        Transition.reconfigure AttrName.ipp (some ("3")) (some ("-2"))]
      (initState, initView)).1.currentPage) := by
  refine ⟨by with_unfolding_all rfl, by with_unfolding_all rfl, ?_⟩
  with_unfolding_all (exact of_decide_eq_true rfl)

theorem showItems_error_first (fuel len : ℕ) (endIdx i : ℚ) (disp : List Bool)
    (hg : i < endIdx ∧ i < (len : ℚ))
    (hbad : ¬(i.den = 1 ∧ 0 ≤ i.num ∧ i.num < (len : ℤ))) :
    showItems (fuel + 1) len endIdx i disp = .error disp := by
  simp only [showItems, if_pos hg, if_neg hbad]

/-- C10 counterexample: with 10 items and itemsPerPage 3 (totalPages 4),
goToPage 2.5 passes the guard and stores currentPage = 2.5, but the show
loop hits item index 4.5, is undefined there, and throws before the
dispatch, so no notification is emitted at all, let alone one with
startIndex 4.5. -/
theorem C10_counterexample_no_notification :
    ((1 : ℚ) ≤ 5 / 2 ∧
      (5 / 2 : ℚ) ≤ (((refresh (List.replicate 10 true) initState 5 initView).st.totalPages : ℤ) : ℚ) ∧
      (5 / 2 : ℚ) ≠ (refresh (List.replicate 10 true) initState 5 initView).st.currentPage) ∧
    (goToPage (5 / 2) (refresh (List.replicate 10 true) initState 5 initView).st 5
        (refresh (List.replicate 10 true) initState 5 initView).view).st.currentPage = 5 / 2 ∧
    getCurrentPage (goToPage (5 / 2) (refresh (List.replicate 10 true) initState 5 initView).st 5
        (refresh (List.replicate 10 true) initState 5 initView).view).st = 5 / 2 ∧
    (goToPage (5 / 2) (refresh (List.replicate 10 true) initState 5 initView).st 5
        (refresh (List.replicate 10 true) initState 5 initView).view).events = [] ∧
    (goToPage (5 / 2) (refresh (List.replicate 10 true) initState 5 initView).st 5
        (refresh (List.replicate 10 true) initState 5 initView).view).threw = true := by
  with_unfolding_all
    (exact ⟨⟨of_decide_eq_true rfl, of_decide_eq_true rfl, of_decide_eq_true rfl⟩,
      rfl, rfl, rfl, rfl⟩)

/-- C10 amended: goToPage performs no integrality check, so any number
(integer or not) passing the range-and-difference guard is stored as
currentPage and returned by getCurrentPage.  The notification, however, is
emitted with startIndex (p-1)*itemsPerPage only when the show loop completes;
when that start index is a fraction (or a negative integer) lying below the
item count with itemsPerPage positive, reading items at an undefined index
throws a TypeError before the dispatch and no notification is emitted. -/
theorem C10_goToPage_no_integrality_check (s : PagState) (v : View) (p : ℚ) (dc : ℕ)
    (h1 : 1 ≤ p) (h2 : p ≤ (s.totalPages : ℚ)) (h3 : p ≠ s.currentPage) :
    (goToPage p s dc v).st.currentPage = p ∧
    getCurrentPage (goToPage p s dc v).st = p ∧
    (if 0 < s.itemsPerPage ∧
        (p - 1) * (s.itemsPerPage : ℚ) < (v.itemDisplay.length : ℚ) ∧
        ¬(((p - 1) * (s.itemsPerPage : ℚ)).den = 1 ∧ 0 ≤ ((p - 1) * (s.itemsPerPage : ℚ)).num) then
      (goToPage p s dc v).events = [] ∧ (goToPage p s dc v).threw = true
     else
      (goToPage p s dc v).events =
        [{ currentPage := p, totalPages := s.totalPages, itemsPerPage := s.itemsPerPage,
           startIndex := (p - 1) * (s.itemsPerPage : ℚ),
           endIndex := min ((p - 1) * (s.itemsPerPage : ℚ) + (s.itemsPerPage : ℚ))
             (v.itemDisplay.length : ℚ) }] ∧
      (goToPage p s dc v).threw = false) := by
  have hguard : 1 ≤ p ∧ p ≤ (s.totalPages : ℚ) ∧ p ≠ s.currentPage := ⟨h1, h2, h3⟩
  have hcp : ∀ r : View × List PageChangeEvent × Bool,
      goToPage p s dc v =
        { st := { s with currentPage := p }, view := r.1, events := r.2.1, threw := r.2.2 } →
      (goToPage p s dc v).st.currentPage = p := fun r hr => by rw [hr]
  refine ⟨?_, ?_, ?_⟩
  · simp only [goToPage, if_pos hguard]
  · simp only [goToPage, getCurrentPage, if_pos hguard]
  · split
    next hthrow =>
      obtain ⟨hipp, hlen, hbad⟩ := hthrow
      obtain ⟨f, hf⟩ : ∃ f, s.itemsPerPage.toNat = f + 1 := ⟨s.itemsPerPage.toNat - 1, by omega⟩
      have hg : (p - 1) * (s.itemsPerPage : ℚ) <
          (p - 1) * (s.itemsPerPage : ℚ) + (s.itemsPerPage : ℚ) ∧
          (p - 1) * (s.itemsPerPage : ℚ) < ((v.itemDisplay.length : ℕ) : ℚ) := by
        constructor
        · have : (0 : ℚ) < (s.itemsPerPage : ℚ) := by exact_mod_cast hipp
          linarith
        · exact hlen
      have hbad2 : ¬(((p - 1) * (s.itemsPerPage : ℚ)).den = 1 ∧
          0 ≤ ((p - 1) * (s.itemsPerPage : ℚ)).num ∧
          ((p - 1) * (s.itemsPerPage : ℚ)).num < ((v.itemDisplay.length : ℕ) : ℤ)) := by
        intro hc
        exact hbad ⟨hc.1, hc.2.1⟩
      have herr := showItems_error_first f v.itemDisplay.length
        ((p - 1) * (s.itemsPerPage : ℚ) + (s.itemsPerPage : ℚ))
        ((p - 1) * (s.itemsPerPage : ℚ))
        (v.itemDisplay.map fun _ => false) hg hbad2
      rw [← hf] at herr
      have hud := updateDisplay_of_error { s with currentPage := p } dc v
        (v.itemDisplay.map fun _ => false) herr
      simp only [goToPage, if_pos hguard, hud]
      refine ⟨?_, ?_⟩ <;> trivial
    next hok =>
      have hstart : (∃ n : ℤ, 0 ≤ n ∧ (p - 1) * (s.itemsPerPage : ℚ) = (n : ℚ)) ∨
          ¬((p - 1) * (s.itemsPerPage : ℚ) <
              (p - 1) * (s.itemsPerPage : ℚ) + (s.itemsPerPage : ℚ) ∧
            (p - 1) * (s.itemsPerPage : ℚ) < ((v.itemDisplay.length : ℕ) : ℚ)) := by
        by_cases hipp : 0 < s.itemsPerPage
        · by_cases hlen : (p - 1) * (s.itemsPerPage : ℚ) < (v.itemDisplay.length : ℚ)
          · have hgood : ((p - 1) * (s.itemsPerPage : ℚ)).den = 1 ∧
                0 ≤ ((p - 1) * (s.itemsPerPage : ℚ)).num := by
              by_contra hc
              exact hok ⟨hipp, hlen, hc⟩
            left
            exact ⟨((p - 1) * (s.itemsPerPage : ℚ)).num, hgood.2,
              (Rat.coe_int_num_of_den_eq_one hgood.1).symm⟩
          · right
            rintro ⟨-, hc⟩
            exact hlen hc
        · right
          rintro ⟨hc, -⟩
          have hpp : (s.itemsPerPage : ℚ) ≤ 0 := by exact_mod_cast (by omega : s.itemsPerPage ≤ 0)
          linarith
      obtain ⟨l, hl⟩ := showItems_start_ok s.itemsPerPage.toNat v.itemDisplay.length
        ((p - 1) * (s.itemsPerPage : ℚ) + (s.itemsPerPage : ℚ))
        ((p - 1) * (s.itemsPerPage : ℚ))
        (v.itemDisplay.map fun _ => false) hstart
      have hud := updateDisplay_of_ok { s with currentPage := p } dc v l hl
      simp only [goToPage, if_pos hguard, hud]
      refine ⟨?_, ?_⟩ <;> trivial

/-- Witness for C10 amended: with itemsPerPage 2, 10 items (totalPages 5) on
page 1, goToPage 3.5 stores the non-integer page 3.5 and, since the start
index (3.5-1)*2 = 5 is integral, emits the notification with startIndex 5. -/
theorem C10_goToPage_no_integrality_check_witness :
    ((1 : ℚ) ≤ 7 / 2 ∧ (7 / 2 : ℚ) ≤ (twoPerPageState.totalPages : ℚ) ∧
      (7 / 2 : ℚ) ≠ twoPerPageState.currentPage) ∧
    (goToPage (7 / 2) twoPerPageState 5 tenItemsView).st.currentPage = 7 / 2 ∧
    getCurrentPage (goToPage (7 / 2) twoPerPageState 5 tenItemsView).st = 7 / 2 ∧
    (goToPage (7 / 2) twoPerPageState 5 tenItemsView).events =
      [{ currentPage := 7 / 2, totalPages := twoPerPageState.totalPages,
         itemsPerPage := twoPerPageState.itemsPerPage,
         startIndex := (7 / 2 - 1) * (twoPerPageState.itemsPerPage : ℚ),
         endIndex := min ((7 / 2 - 1) * (twoPerPageState.itemsPerPage : ℚ) +
             (twoPerPageState.itemsPerPage : ℚ))
           (tenItemsView.itemDisplay.length : ℚ) }] := by
  have h1 : (1 : ℚ) ≤ 7 / 2 := by norm_num
  have h2 : (7 / 2 : ℚ) ≤ (twoPerPageState.totalPages : ℚ) := by
    with_unfolding_all (exact of_decide_eq_true rfl)
  have h3 : (7 / 2 : ℚ) ≠ twoPerPageState.currentPage := by
    with_unfolding_all (exact of_decide_eq_true rfl)
  have h := C10_goToPage_no_integrality_check twoPerPageState tenItemsView (7 / 2) 5 h1 h2 h3
  refine ⟨⟨h1, h2, h3⟩, h.1, h.2.1, ?_⟩
  have h4 := h.2.2
  rw [if_neg (by with_unfolding_all (exact of_decide_eq_true rfl))] at h4
  exact h4.1

theorem calculateTotalPages_frame (s : PagState) :
    (calculateTotalPages s).itemsPerPage = s.itemsPerPage ∧
    (calculateTotalPages s).numItems = s.numItems ∧
    (calculateTotalPages s).prevText = s.prevText ∧
    (calculateTotalPages s).nextText = s.nextText := by
  simp only [calculateTotalPages]
  split <;> exact ⟨rfl, rfl, rfl, rfl⟩

theorem resetCp_frame (s : PagState) :
    (resetCp s).itemsPerPage = s.itemsPerPage ∧
    (resetCp s).numItems = s.numItems ∧
    (resetCp s).totalPages = s.totalPages := by
  simp only [resetCp]
  split <;> exact ⟨rfl, rfl, rfl⟩

theorem resetCp_cp_ge_one (s : PagState) : 1 ≤ (resetCp s).currentPage := by
  simp only [resetCp]
  split
  next h => exact le_refl 1
  next h => exact not_lt.mp h

theorem set_numItems_self (x : PagState) (n : ℕ) (h : x.numItems = n) :
    { x with numItems := n } = x := by
  cases x
  simp only at h
  rw [← h]

theorem calculateTotalPages_idem (s : PagState) :
    calculateTotalPages (calculateTotalPages s) = calculateTotalPages s := by
  obtain ⟨ipp, pt, nt, cp, tp, n⟩ := s
  by_cases h : cp > ((calculateTotalPagesFn n ipp : ℤ) : ℚ)
  · have h1 : calculateTotalPages ⟨ipp, pt, nt, cp, tp, n⟩ =
        ⟨ipp, pt, nt, ((calculateTotalPagesFn n ipp : ℤ) : ℚ), calculateTotalPagesFn n ipp, n⟩ := by
      simp only [calculateTotalPages]
      rw [if_pos h]
    rw [h1]
    simp only [calculateTotalPages]
    rw [if_neg (lt_irrefl _)]
  · have h1 : calculateTotalPages ⟨ipp, pt, nt, cp, tp, n⟩ =
        ⟨ipp, pt, nt, cp, calculateTotalPagesFn n ipp, n⟩ := by
      simp only [calculateTotalPages]
      rw [if_neg h]
    rw [h1]
    simp only [calculateTotalPages]
    rw [if_neg h]

theorem calc_resetCp_calc (t : PagState) (h : 1 ≤ t.currentPage) :
    calculateTotalPages (resetCp (calculateTotalPages t)) = calculateTotalPages t := by
  obtain ⟨ipp, pt, nt, cp, tp, n⟩ := t
  simp only at h
  by_cases hc : cp > ((calculateTotalPagesFn n ipp : ℤ) : ℚ)
  · have h1 : calculateTotalPages ⟨ipp, pt, nt, cp, tp, n⟩ =
        ⟨ipp, pt, nt, ((calculateTotalPagesFn n ipp : ℤ) : ℚ), calculateTotalPagesFn n ipp, n⟩ := by
      simp only [calculateTotalPages]
      rw [if_pos hc]
    rw [h1]
    by_cases hT : ((calculateTotalPagesFn n ipp : ℤ) : ℚ) < 1
    · have h2 : resetCp ⟨ipp, pt, nt, ((calculateTotalPagesFn n ipp : ℤ) : ℚ),
          calculateTotalPagesFn n ipp, n⟩ =
          ⟨ipp, pt, nt, 1, calculateTotalPagesFn n ipp, n⟩ := by
        simp only [resetCp]
        rw [if_pos hT]
      rw [h2]
      simp only [calculateTotalPages]
      rw [if_pos (by exact hT)]
    · have h2 : resetCp ⟨ipp, pt, nt, ((calculateTotalPagesFn n ipp : ℤ) : ℚ),
          calculateTotalPagesFn n ipp, n⟩ =
          ⟨ipp, pt, nt, ((calculateTotalPagesFn n ipp : ℤ) : ℚ),
            calculateTotalPagesFn n ipp, n⟩ := by
        simp only [resetCp]
        rw [if_neg hT]
      rw [h2]
      simp only [calculateTotalPages]
      rw [if_neg (lt_irrefl _)]
  · have h1 : calculateTotalPages ⟨ipp, pt, nt, cp, tp, n⟩ =
        ⟨ipp, pt, nt, cp, calculateTotalPagesFn n ipp, n⟩ := by
      simp only [calculateTotalPages]
      rw [if_neg hc]
    rw [h1]
    have h2 : resetCp ⟨ipp, pt, nt, cp, calculateTotalPagesFn n ipp, n⟩ =
        ⟨ipp, pt, nt, cp, calculateTotalPagesFn n ipp, n⟩ := by
      simp only [resetCp]
      rw [if_neg (not_lt.mpr h)]
    rw [h2]
    simp only [calculateTotalPages]
    rw [if_neg hc]

theorem updatePagination_ok_nf (s : PagState) (dc : ℕ) (v : View) (l : List Bool)
    (h : showItems (calculateTotalPages s).itemsPerPage.toNat v.itemDisplay.length
        (((calculateTotalPages s).currentPage - 1) * ((calculateTotalPages s).itemsPerPage : ℚ) +
          ((calculateTotalPages s).itemsPerPage : ℚ))
        (((calculateTotalPages s).currentPage - 1) * ((calculateTotalPages s).itemsPerPage : ℚ))
        (v.itemDisplay.map fun _ => false) = .ok l) :
    updatePagination s dc v =
      { st := calculateTotalPages s,
        view :=
          { itemDisplay := l,
            pageBtns := rebuiltBtns (calculateTotalPages s) dc,
            prevDisabled := decide ((calculateTotalPages s).currentPage = 1),
            nextDisabled := decide ((calculateTotalPages s).currentPage =
              ((calculateTotalPages s).totalPages : ℚ)),
            controlsVisible := decide (1 < (calculateTotalPages s).totalPages),
            prevLabel := v.prevLabel, nextLabel := v.nextLabel },
        events :=
          [{ currentPage := (calculateTotalPages s).currentPage,
             totalPages := (calculateTotalPages s).totalPages,
             itemsPerPage := (calculateTotalPages s).itemsPerPage,
             startIndex := ((calculateTotalPages s).currentPage - 1) *
               ((calculateTotalPages s).itemsPerPage : ℚ),
             endIndex := min (((calculateTotalPages s).currentPage - 1) *
                 ((calculateTotalPages s).itemsPerPage : ℚ) +
                 ((calculateTotalPages s).itemsPerPage : ℚ))
               (v.itemDisplay.length : ℚ) }],
        threw := false } := by
  have hud := updateDisplay_of_ok (calculateTotalPages s) dc
    (createPageNumbers (calculateTotalPages s) dc v) l h
  simp only [updatePagination, hud]
  rfl

theorem updatePagination_err_nf (s : PagState) (dc : ℕ) (v : View) (l : List Bool)
    (h : showItems (calculateTotalPages s).itemsPerPage.toNat v.itemDisplay.length
        (((calculateTotalPages s).currentPage - 1) * ((calculateTotalPages s).itemsPerPage : ℚ) +
          ((calculateTotalPages s).itemsPerPage : ℚ))
        (((calculateTotalPages s).currentPage - 1) * ((calculateTotalPages s).itemsPerPage : ℚ))
        (v.itemDisplay.map fun _ => false) = .error l) :
    updatePagination s dc v =
      { st := calculateTotalPages s,
        view :=
          { itemDisplay := l,
            pageBtns := createdBtns (calculateTotalPages s) dc,
            prevDisabled := v.prevDisabled,
            nextDisabled := v.nextDisabled,
            controlsVisible := v.controlsVisible,
            prevLabel := v.prevLabel, nextLabel := v.nextLabel },
        events := [], threw := true } := by
  have hud := updateDisplay_of_error (calculateTotalPages s) dc
    (createPageNumbers (calculateTotalPages s) dc v) l h
  simp only [updatePagination, hud]
  rfl

theorem updatePagination_st (s : PagState) (dc : ℕ) (v : View) :
    (updatePagination s dc v).st = calculateTotalPages s := by
  simp only [updatePagination]
  split <;> rfl

theorem updatePagination_len (s : PagState) (dc : ℕ) (v : View) :
    (updatePagination s dc v).view.itemDisplay.length = v.itemDisplay.length := by
  rcases hshow : showItems (calculateTotalPages s).itemsPerPage.toNat v.itemDisplay.length
      (((calculateTotalPages s).currentPage - 1) * ((calculateTotalPages s).itemsPerPage : ℚ) +
        ((calculateTotalPages s).itemsPerPage : ℚ))
      (((calculateTotalPages s).currentPage - 1) * ((calculateTotalPages s).itemsPerPage : ℚ))
      (v.itemDisplay.map fun _ => false) with l | l
  · rw [updatePagination_err_nf s dc v l hshow]
    have := (showItems_length _ _ _ _ _).2 l hshow
    simpa using this
  · rw [updatePagination_ok_nf s dc v l hshow]
    have := (showItems_length _ _ _ _ _).1 l hshow
    simpa using this

theorem updatePagination_labels (s : PagState) (dc : ℕ) (v : View) :
    (updatePagination s dc v).view.prevLabel = v.prevLabel ∧
    (updatePagination s dc v).view.nextLabel = v.nextLabel := by
  rcases hshow : showItems (calculateTotalPages s).itemsPerPage.toNat v.itemDisplay.length
      (((calculateTotalPages s).currentPage - 1) * ((calculateTotalPages s).itemsPerPage : ℚ) +
        ((calculateTotalPages s).itemsPerPage : ℚ))
      (((calculateTotalPages s).currentPage - 1) * ((calculateTotalPages s).itemsPerPage : ℚ))
      (v.itemDisplay.map fun _ => false) with l | l
  · rw [updatePagination_err_nf s dc v l hshow]
    exact ⟨rfl, rfl⟩
  · rw [updatePagination_ok_nf s dc v l hshow]
    exact ⟨rfl, rfl⟩

theorem updatePagination_err_frame (s : PagState) (dc : ℕ) (v : View)
    (h : (updatePagination s dc v).threw = true) :
    (updatePagination s dc v).view.prevDisabled = v.prevDisabled ∧
    (updatePagination s dc v).view.nextDisabled = v.nextDisabled ∧
    (updatePagination s dc v).view.controlsVisible = v.controlsVisible := by
  rcases hshow : showItems (calculateTotalPages s).itemsPerPage.toNat v.itemDisplay.length
      (((calculateTotalPages s).currentPage - 1) * ((calculateTotalPages s).itemsPerPage : ℚ) +
        ((calculateTotalPages s).itemsPerPage : ℚ))
      (((calculateTotalPages s).currentPage - 1) * ((calculateTotalPages s).itemsPerPage : ℚ))
      (v.itemDisplay.map fun _ => false) with l | l
  · rw [updatePagination_err_nf s dc v l hshow]
    exact ⟨rfl, rfl, rfl⟩
  · rw [updatePagination_ok_nf s dc v l hshow] at h
    simp at h

theorem updatePagination_congr (s : PagState) (dc : ℕ) (va vb : View)
    (hlen : va.itemDisplay.length = vb.itemDisplay.length)
    (hpl : va.prevLabel = vb.prevLabel) (hnl : va.nextLabel = vb.nextLabel)
    (hfr : (updatePagination s dc vb).threw = true →
      va.prevDisabled = vb.prevDisabled ∧ va.nextDisabled = vb.nextDisabled ∧
      va.controlsVisible = vb.controlsVisible) :
    updatePagination s dc va = updatePagination s dc vb := by
  have hmap : (va.itemDisplay.map fun _ => false) = (vb.itemDisplay.map fun _ => false) := by
    rw [List.map_const', List.map_const', hlen]
  rcases hshow : showItems (calculateTotalPages s).itemsPerPage.toNat vb.itemDisplay.length
      (((calculateTotalPages s).currentPage - 1) * ((calculateTotalPages s).itemsPerPage : ℚ) +
        ((calculateTotalPages s).itemsPerPage : ℚ))
      (((calculateTotalPages s).currentPage - 1) * ((calculateTotalPages s).itemsPerPage : ℚ))
      (vb.itemDisplay.map fun _ => false) with l | l
  · have hshowa : showItems (calculateTotalPages s).itemsPerPage.toNat va.itemDisplay.length
        (((calculateTotalPages s).currentPage - 1) * ((calculateTotalPages s).itemsPerPage : ℚ) +
          ((calculateTotalPages s).itemsPerPage : ℚ))
        (((calculateTotalPages s).currentPage - 1) * ((calculateTotalPages s).itemsPerPage : ℚ))
        (va.itemDisplay.map fun _ => false) = .error l := by
      rw [hlen, hmap]
      exact hshow
    have hb := updatePagination_err_nf s dc vb l hshow
    obtain ⟨h5a, h5b, h5c⟩ := hfr (by rw [hb])
    rw [updatePagination_err_nf s dc va l hshowa, hb, hpl, hnl, h5a, h5b, h5c]
  · have hshowa : showItems (calculateTotalPages s).itemsPerPage.toNat va.itemDisplay.length
        (((calculateTotalPages s).currentPage - 1) * ((calculateTotalPages s).itemsPerPage : ℚ) +
          ((calculateTotalPages s).itemsPerPage : ℚ))
        (((calculateTotalPages s).currentPage - 1) * ((calculateTotalPages s).itemsPerPage : ℚ))
        (va.itemDisplay.map fun _ => false) = .ok l := by
      rw [hlen, hmap]
      exact hshow
    rw [updatePagination_ok_nf s dc va l hshowa, updatePagination_ok_nf s dc vb l hshow,
      hpl, hnl, hlen]

theorem set_itemDisplay_self (x : View) : { x with itemDisplay := x.itemDisplay } = x := rfl

theorem refresh_st (d : List Bool) (s : PagState) (dc : ℕ) (v : View) :
    (refresh d s dc v).st = refreshedState s d := by
  show (updatePagination (refreshedState s d) dc { v with itemDisplay := d }).st =
    refreshedState s d
  rw [updatePagination_st]
  exact calculateTotalPages_idem (resetCp { s with numItems := d.length })

theorem refresh_view (d : List Bool) (s : PagState) (dc : ℕ) (v : View) :
    (refresh d s dc v).view =
      (updatePagination (refreshedState s d) dc { v with itemDisplay := d }).view := rfl

/-- C8: refresh is idempotent: running refresh a second time on the same
slotted items (whose display states are those the first refresh left) gives
the same pagination state and the same view as the first refresh. -/
theorem C8_refresh_idempotent (s : PagState) (v : View) (disp : List Bool) (dc : ℕ) :
    (refresh (refresh disp s dc v).view.itemDisplay (refresh disp s dc v).st dc
        (refresh disp s dc v).view).st = (refresh disp s dc v).st ∧
    (refresh (refresh disp s dc v).view.itemDisplay (refresh disp s dc v).st dc
        (refresh disp s dc v).view).view = (refresh disp s dc v).view := by
  have hWnum : (refreshedState s disp).numItems = disp.length := by
    show (calculateTotalPages (resetCp { s with numItems := disp.length })).numItems = disp.length
    rw [(calculateTotalPages_frame _).2.1, (resetCp_frame _).2.1]
  have hlen1 : (refresh disp s dc v).view.itemDisplay.length = disp.length := by
    rw [refresh_view, updatePagination_len]
  have hst1 : (refresh disp s dc v).st = refreshedState s disp := refresh_st disp s dc v
  have hRS : refreshedState (refresh disp s dc v).st (refresh disp s dc v).view.itemDisplay =
      refreshedState s disp := by
    rw [hst1]
    show calculateTotalPages (resetCp { refreshedState s disp with
      numItems := (refresh disp s dc v).view.itemDisplay.length }) = refreshedState s disp
    rw [hlen1, set_numItems_self _ _ hWnum]
    exact calc_resetCp_calc (resetCp { s with numItems := disp.length }) (resetCp_cp_ge_one _)
  have ho2 : refresh (refresh disp s dc v).view.itemDisplay (refresh disp s dc v).st dc
      (refresh disp s dc v).view =
      { updatePagination (refreshedState s disp) dc (refresh disp s dc v).view with
        threw := false } := by
    show { updatePagination (refreshedState (refresh disp s dc v).st
        (refresh disp s dc v).view.itemDisplay) dc
        { (refresh disp s dc v).view with itemDisplay := (refresh disp s dc v).view.itemDisplay }
        with threw := false } = _
    rw [hRS, set_itemDisplay_self]
  have hcongr : updatePagination (refreshedState s disp) dc (refresh disp s dc v).view =
      updatePagination (refreshedState s disp) dc { v with itemDisplay := disp } := by
    apply updatePagination_congr
    · rw [hlen1]
    · rw [refresh_view, (updatePagination_labels _ _ _).1]
    · rw [refresh_view, (updatePagination_labels _ _ _).2]
    · intro hthrew
      have hf := updatePagination_err_frame (refreshedState s disp) dc
        { v with itemDisplay := disp } hthrew
      refine ⟨?_, ?_, ?_⟩
      · rw [refresh_view]
        exact hf.1
      · rw [refresh_view]
        exact hf.2.1
      · rw [refresh_view]
        exact hf.2.2
  have hfinal : refresh (refresh disp s dc v).view.itemDisplay (refresh disp s dc v).st dc
      (refresh disp s dc v).view = refresh disp s dc v := by
    rw [ho2, hcongr]
    rfl
  rw [hfinal]
  exact ⟨rfl, rfl⟩

end PaginationWC
